import Mathlib

/-!
Shallow embedding of `exportutils.py`, a FreeCAD macro layer for laser/mill
toolpath generation.  Python floats are modelled as rationals (the values
involved are decimal literals and ratios of them); Python's `Union[int, float]`
arguments are modelled by `PyNum`; code that can raise returns `Except String`.
External FreeCAD/CAM operations (document recomputation, job creation,
post-processing, GUI queries) are abstracted as explicit inputs.
-/

/-- Python `Union[int, float]` argument: an `int` or a `float` (as `ℚ`). -/
inductive PyNum : Type where
  | int (n : ℤ)
  | float (q : ℚ)

/-- The int-to-float normalization performed by
`if isinstance(thickness, int): thickness = float(thickness)`. -/
def PyNum.toFloat : PyNum → ℚ
  | .int n => (n : ℚ)
  | .float q => q

/-- `class cutterMaterial`: a flat record of cutting parameters
(`__init__` at exportutils.py:41-46). -/
structure cutterMaterial where
  thickness : ℚ
  feedSpeed : ℚ
  rapidSpeed : ℚ
  kerf : ℚ
  cutIntensity : ℚ
deriving DecidableEq

/-- Python dict lookup (`speeds[k]`, keys compared with `==`). -/
def lookupQ (k : ℚ) : List (ℚ × ℚ) → Option ℚ
  | [] => none
  | p :: rest => if k = p.fst then some p.snd else lookupQ k rest

/-- The `speeds` dict of `cutterMaterial.acrylic` (exportutils.py:67-72). -/
def acrylicSpeeds : List (ℚ × ℚ) :=
  [(1, 5/2), (2, 2), (3, 13/10), (5, 1)]

/-- `cutterMaterial.acrylic` (exportutils.py:62-75): normalizes the thickness,
raises when no speed multiplier is defined for it, otherwise builds the
preset `cutterMaterial(thicknessFloat, (300/60)*speeds[t], 3000/60, kerf, ci)`. -/
def cutterMaterial.acrylic (thickness : PyNum) (kerf : ℚ := 1/5) (cutIntensity : ℚ := 255) :
    Except String cutterMaterial :=
  let thicknessFloat := thickness.toFloat
  match lookupQ thicknessFloat acrylicSpeeds with
  | none => .error ("Speed multiplier for acrylic at thickness " ++ toString thicknessFloat
      ++ " mm not defined")
  | some mult => .ok ⟨thicknessFloat, (300/60) * mult, 3000/60, kerf, cutIntensity⟩

/-- `cutterMaterial.bamboo` (exportutils.py:48-53). -/
def cutterMaterial.bamboo (thickness : PyNum) (kerf : ℚ := 1/4) (cutIntensity : ℚ := 255) :
    cutterMaterial :=
  ⟨thickness.toFloat, (300/60) * (17/10), 3000/60, kerf, cutIntensity⟩

/-- `cutterMaterial.mdf` (exportutils.py:55-60), identical parameters to bamboo. -/
def cutterMaterial.mdf (thickness : PyNum) (kerf : ℚ := 1/4) (cutIntensity : ℚ := 255) :
    cutterMaterial :=
  ⟨thickness.toFloat, (300/60) * (17/10), 3000/60, kerf, cutIntensity⟩

/-- A 3-vector (FreeCAD `Vector`), components as rationals. -/
structure Vec3 where
  x : ℚ
  y : ℚ
  z : ℚ
deriving DecidableEq

/-- Componentwise difference of vectors (`v - w`). -/
def Vec3.sub (v w : Vec3) : Vec3 :=
  ⟨v.x - w.x, v.y - w.y, v.z - w.z⟩

/-- Squared euclidean length of a vector.  The source compares `.Length < ε`
for a nonnegative length; we compare squares to stay in `ℚ`:
`.Length < ε ↔ len2 < ε²` for `ε > 0`. -/
def Vec3.len2 (v : Vec3) : ℚ :=
  v.x * v.x + v.y * v.y + v.z * v.z

/-- A B-rep face as this code observes it: its normal at parameter (0,0)
(`face.normalAt(0,0)`) and its vertex list (`face.Vertexes`). -/
structure Face where
  normalAt00 : Vec3
  vertexes : List Vec3
deriving DecidableEq

/-- An axis-aligned bounding box (`Shape.BoundBox`), the fields this code reads. -/
structure BBox where
  xMin : ℚ
  yMin : ℚ
  xMax : ℚ
  yMax : ℚ
  xLength : ℚ
  yLength : ℚ
deriving DecidableEq

/-- A FreeCAD document object as observed by this code: its `Label`, `Name`,
whether its Python class is exactly `FreeCAD.DocumentObject`, whether its
`Shape` is a `Part.Compound`, its shape's bounding box and faces, the group of
its `LinkedObject` when that attribute exists (`getattr(obj,'LinkedObject',None)`
then `getattr(linkTarget,'Group',[])`), and the components that
`CompoundTools.Explode.explodeCompound` yields for it when it is a compound. -/
inductive DocObj : Type where
  | mk (label : String) (name : String) (isPlainClass : Bool) (isCompound : Bool)
       (bbox : BBox) (faces : List Face) (linkedGroup : Option (List DocObj))
       (compoundChildren : List DocObj) : DocObj

def DocObj.label : DocObj → String
  | .mk l _ _ _ _ _ _ _ => l

def DocObj.name : DocObj → String
  | .mk _ n _ _ _ _ _ _ => n

def DocObj.isPlainClass : DocObj → Bool
  | .mk _ _ p _ _ _ _ _ => p

def DocObj.isCompound : DocObj → Bool
  | .mk _ _ _ c _ _ _ _ => c

def DocObj.bbox : DocObj → BBox
  | .mk _ _ _ _ b _ _ _ => b

def DocObj.faces : DocObj → List Face
  | .mk _ _ _ _ _ f _ _ => f

def DocObj.linkedGroup : DocObj → Option (List DocObj)
  | .mk _ _ _ _ _ _ g _ => g

def DocObj.compoundChildren : DocObj → List DocObj
  | .mk _ _ _ _ _ _ _ c => c

/-- The active document (`FreeCAD.ActiveDocument`): its object list, in
document order (`doc.Objects`; `getObjectsByLabel` returns matches in this
order). -/
structure Document where
  objects : List DocObj

/-- The linked-object fallback loop of `getObjectByLabel`
(exportutils.py:541-548): scan document objects whose class is exactly
`FreeCAD.DocumentObject`, skip those without a `LinkedObject`, and return the
first member of a link target's `Group` carrying the wanted label. -/
def findInLinks (objName : String) : List DocObj → Option DocObj
  | [] => none
  | obj :: rest =>
    if obj.isPlainClass then
      match obj.linkedGroup with
      | none => findInLinks objName rest
      | some grp =>
        match grp.find? (fun toTest => toTest.label = objName) with
        | some m => some m
        | none => findInLinks objName rest
    else
      findInLinks objName rest

/-- `exportutils.getObjectByLabel` (exportutils.py:534-549): first object with
the label, else first matching member of a linked object's group, else raise. -/
def exportutils.getObjectByLabel (doc : Document) (objName : String) :
    Except String DocObj :=
  match doc.objects.filter (fun o => o.label = objName) with
  | toRet :: _ => .ok toRet
  | [] =>
    match findInLinks objName doc.objects with
    | some m => .ok m
    | none => .error ("Couldn't find object " ++ objName)

/-- Spec-side description of the fallback search: the first member with the
wanted label found inside a linked object's group, taking documents objects in
order. -/
def firstLinkedMember (doc : Document) (objName : String) : Option DocObj :=
  (doc.objects.filterMap (fun obj =>
    if obj.isPlainClass then
      (obj.linkedGroup.getD []).find? (fun m => m.label = objName)
    else none)).head?

/-- A `TabProperties` record as built at exportutils.py:120-122 (the fields
this code supplies; tab geometry itself lives in the external joinery library). -/
structure TabProps where
  objName : String
  faceName : String
  tabsNumber : ℚ
  tabsWidth : ℚ
  tabsShift : ℚ
  intervalRatio : ℚ
deriving DecidableEq

/-- `class tabbedObjectBuilder` state: the registered object names, the
material thickness it registers parts with, the `parts` list of the join
group (modelled by the labels registered in `__init__`), and the join group's
`faces` list of `TabProperties`. -/
structure tabbedObjectBuilder where
  objectNames : List String
  materialThickness : ℚ
  parts : List String
  faces : List TabProps

/-- `abs(v) < req` check on an optional coordinate constraint:
`required is None or abs(coord - required) < 0.01`. -/
def optNear (required : Option ℚ) (coord : ℚ) : Bool :=
  match required with
  | none => true
  | some r => decide (|coord - r| < 1/100)

/-- The face filter of `createTabsByFaceNormal` (exportutils.py:111-119): more
than two vertices, normal at (0,0) within 0.01 of the target (compared via
squared length), first-vertex coordinate constraints within 0.01 (X, then Z,
then Y, as in the source), and the optional test function. -/
def codeFaceSelected (normalToFind : Vec3) (requiredX requiredY requiredZ : Option ℚ)
    (testFunc : Option (Face → Bool)) (face : Face) : Bool :=
  match face.vertexes with
  | v0 :: _ :: _ :: _ =>
    decide ((face.normalAt00.sub normalToFind).len2 < 1/10000) &&
    (optNear requiredX v0.x && optNear requiredZ v0.z && optNear requiredY v0.y) &&
    (match testFunc with
     | none => true
     | some f => f face)
  | _ => false

/-- The claim's face filter as the spec words it: normal within tolerance,
first-vertex coordinate constraints, and the optional test function — with no
condition on the number of vertices. -/
def claimFaceSelected (normalToFind : Vec3) (requiredX requiredY requiredZ : Option ℚ)
    (testFunc : Option (Face → Bool)) (face : Face) : Bool :=
  decide ((face.normalAt00.sub normalToFind).len2 < 1/10000) &&
  (optNear requiredX (face.vertexes.headD ⟨0, 0, 0⟩).x &&
   optNear requiredZ (face.vertexes.headD ⟨0, 0, 0⟩).z &&
   optNear requiredY (face.vertexes.headD ⟨0, 0, 0⟩).y) &&
  (match testFunc with
   | none => true
   | some f => f face)

/-- The face loop of `createTabsByFaceNormal` (exportutils.py:108-124):
walk the faces with a 1-based index, appending a `TabProperties` for each
selected face, in face order. -/
def tabsForFaces (objName : String) (normalToFind : Vec3)
    (requiredX requiredY requiredZ : Option ℚ)
    (tabWidth tabNumber tabShift tabRatio : ℚ) (testFunc : Option (Face → Bool)) :
    List Face → Nat → List TabProps
  | [], _ => []
  | face :: rest, faceidx =>
    if codeFaceSelected normalToFind requiredX requiredY requiredZ testFunc face then
      ⟨objName, "Face" ++ toString faceidx, tabNumber, tabWidth, tabShift, tabRatio⟩ ::
        tabsForFaces objName normalToFind requiredX requiredY requiredZ
          tabWidth tabNumber tabShift tabRatio testFunc rest (faceidx + 1)
    else
      tabsForFaces objName normalToFind requiredX requiredY requiredZ
        tabWidth tabNumber tabShift tabRatio testFunc rest (faceidx + 1)

/-- `tabbedObjectBuilder.createTabsByFaceNormal` (exportutils.py:106-124):
look up the object by label (`getObjectsByLabel(objectName)[0]`, an
`IndexError` when absent) and append a `TabProperties` entry to the join
group's `faces` for every face passing the filter. -/
def tabbedObjectBuilder.createTabsByFaceNormal (doc : Document)
    (st : tabbedObjectBuilder) (objectName : String) (normalToFind : Vec3)
    (requiredX requiredY requiredZ : Option ℚ)
    (tabWidth tabNumber tabShift tabRatio : ℚ) (testFunc : Option (Face → Bool)) :
    Except String tabbedObjectBuilder :=
  match doc.objects.filter (fun o => o.label = objectName) with
  | [] => .error "IndexError: list index out of range"
  | obj :: _ =>
    .ok { st with
      faces := st.faces ++ tabsForFaces obj.name normalToFind
        requiredX requiredY requiredZ tabWidth tabNumber tabShift tabRatio
        testFunc obj.faces 1 }

/-- List of the (1-based index, face) pairs, starting at a given index. -/
def enumFacesFrom : Nat → List Face → List (Nat × Face)
  | _, [] => []
  | i, f :: rest => (i, f) :: enumFacesFrom (i + 1) rest

/-- The tab label derived at exportutils.py:137:
`objName.replace(".", "_").replace("-", "_") + "_tab"`.  Both replacements
substitute single characters, so together they are a per-character map. -/
def tabLabel (objName : String) : String :=
  String.mk (objName.data.map (fun c => if c = '.' ∨ c = '-' then '_' else c)) ++ "_tab"

/-- The collection loop of `tabbedObjectBuilder.execute` (exportutils.py:136-149):
for each registered name, find the object labelled with the derived tab label
(raising when absent), and append it — or, when its shape is a compound, the
components of `explodeCompound` (whose first component is accessed at
exportutils.py:145, an `IndexError` when there are none). -/
def collectTabbed (doc : Document) : List String → Except String (List DocObj)
  | [] => .ok []
  | objName :: rest =>
    match doc.objects.filter (fun o => o.label = tabLabel objName) with
    | [] => .error ("Can't find tabbed result of object " ++ objName)
    | obj :: _ =>
      if obj.isCompound then
        match obj.compoundChildren with
        | [] => .error "IndexError: list index out of range"
        | c :: cs =>
          match collectTabbed doc rest with
          | .error e => .error e
          | .ok tail => .ok ((c :: cs) ++ tail)
      else
        match collectTabbed doc rest with
        | .error e => .error e
        | .ok tail => .ok (obj :: tail)

/-- `tabbedObjectBuilder.execute` (exportutils.py:129-157).  The external
joinery recomputation (`joinGroup.execute`) and the visibility updates mutate
host state only; the returned value is the collected list of tabbed objects. -/
def tabbedObjectBuilder.execute (doc : Document) (st : tabbedObjectBuilder) :
    Except String (List DocObj) :=
  collectTabbed doc st.objectNames

/-- Spec-side description of the successful result: each name's tab object,
compounds replaced by their exploded children. -/
def specTabbedList (doc : Document) (objectNames : List String) : List DocObj :=
  objectNames.flatMap (fun objName =>
    match doc.objects.find? (fun o => o.label = tabLabel objName) with
    | none => []
    | some obj => if obj.isCompound then obj.compoundChildren else [obj])

/-- `Union[str, App.DocumentObject]` element of the constructor's
`objectsToCut` argument. -/
inductive ObjOrName : Type where
  | name (s : String)
  | obj (o : DocObj)

/-- `class exportutils` instance state (exportutils.py:160-176). -/
structure exportutils where
  material : cutterMaterial
  objectsToCut : List DocObj
  gcode : Option String
  allowZMoves : Bool

/-- The resolution loop of `exportutils.__init__` (exportutils.py:168-173):
strings are treated as labels and resolved with `getObjectByLabel` (which can
raise); objects are kept as they are. -/
def resolveObjects (doc : Document) : List ObjOrName → Except String (List DocObj)
  | [] => .ok []
  | .name s :: rest =>
    match exportutils.getObjectByLabel doc s with
    | .error e => .error e
    | .ok o =>
      match resolveObjects doc rest with
      | .error e => .error e
      | .ok os => .ok (o :: os)
  | .obj o :: rest =>
    match resolveObjects doc rest with
    | .error e => .error e
    | .ok os => .ok (o :: os)

/-- `exportutils.__init__` (exportutils.py:165-176): resolve the objects,
cache no G-code (`self.gcode = None`) and disallow Z moves. -/
def exportutils.init (doc : Document) (objectsToCut : List ObjOrName)
    (material : cutterMaterial) : Except String exportutils :=
  match resolveObjects doc objectsToCut with
  | .error e => .error e
  | .ok objs => .ok ⟨material, objs, none, false⟩

/-- `exportutils.generateGCode` (exportutils.py:315-318). -/
def exportutils.generateGCode (st : exportutils) : Except String String :=
  match st.gcode with
  | none => .error ".execute not called before attempt to save gcode"
  | some g => .ok g

/-- Python's `min(...)` over a nonempty sequence, seeded with the head. -/
def pyMin (a : ℚ) (l : List ℚ) : ℚ :=
  l.foldl min a

/-- What the external CAM machinery produces during `exportutils.execute`:
the bounding box of the stock shape computed by `PathJob` for the fused
objects, and the G-code text returned by the post-processor. -/
structure ExecEnv where
  stockBBox : BBox
  gcodeOut : String

/-- `exportutils.execute` (exportutils.py:244-313).  The job/tool/profile
assembly and the post-processor are external (abstracted by `env`); the
function's own control flow: raise `ValueError` on `min` of an empty sequence,
raise when any object lies in negative X/Y space (exportutils.py:249-252),
raise when the stock bounding box exceeds the 420 x 297 bed
(exportutils.py:306-307), and only then cache the generated G-code. -/
def exportutils.execute (st : exportutils) (env : ExecEnv) : Except String exportutils :=
  match st.objectsToCut with
  | [] => .error "ValueError: min() arg is an empty sequence"
  | o :: rest =>
    let minX := pyMin o.bbox.xMin (rest.map (fun objectToCut => objectToCut.bbox.xMin))
    let minY := pyMin o.bbox.yMin (rest.map (fun objectToCut => objectToCut.bbox.yMin))
    if minX < 0 ∨ minY < 0 then
      .error "Objects are not all in positive X and Y space"
    else if env.stockBBox.xLength > 420 ∨ env.stockBBox.yLength > 297 then
      .error "Cut is too large for laser cutter bed"
    else
      .ok { st with gcode := some env.gcodeOut }

/-- One answer of the GUI to a sub-window query inside the retry loop of
`saveScreenshotOfPath`: either the number of sub-windows whose title starts
with "exported", or an `AttributeError` raised inside the `try` body. -/
inductive WinQuery : Type where
  | windows (n : Nat)
  | attrError
deriving DecidableEq

/-- The retry loop of `saveScreenshotOfPath` (exportutils.py:358-384), indexed
by the remaining retry budget and the current attempt number.  No matching
sub-window: raise when the budget is exhausted, otherwise retry; exactly one:
succeed; more than one: raise immediately; `AttributeError`: re-raise when the
budget is exhausted, otherwise retry. -/
def findSubWindowLoop (genv : Nat → WinQuery) : Nat → Nat → Except String Nat
  | 0, attempt =>
    match genv attempt with
    | .attrError => .error "AttributeError"
    | .windows 0 => .error "Can't find sub window"
    | .windows 1 => .ok attempt
    | .windows (_ + 2) => .error "Multiple windows open, please close some"
  | retries + 1, attempt =>
    match genv attempt with
    | .attrError => findSubWindowLoop genv retries (attempt + 1)
    | .windows 0 => findSubWindowLoop genv retries (attempt + 1)
    | .windows 1 => .ok attempt
    | .windows (_ + 2) => .error "Multiple windows open, please close some"

/-- `exportutils.saveScreenshotOfPath` (exportutils.py:330-402): an early
return when `append` is requested, the missing-G-code check, the lookup of the
"Operations" object (`getObjectsByLabel("Operations")[0]`, an `IndexError`
when absent), then the sub-window retry loop with a budget of 10; view
manipulation and the image write are external and abstracted as succeeding. -/
def exportutils.saveScreenshotOfPath (st : exportutils) (doc : Document)
    (append : Bool) (genv : Nat → WinQuery) : Except String Unit :=
  if append then .ok ()
  else
    match st.gcode with
    | none => .error ".execute not called before attempt to save screenshot"
    | some _ =>
      match doc.objects.filter (fun o => o.label = "Operations") with
      | [] => .error "IndexError: list index out of range"
      | _ :: _ =>
        match findSubWindowLoop genv 10 0 with
        | .error e => .error e
        | .ok _ => .ok ()

/-- An object as `placeInRow` observes it: the placement base
(`obj.Placement.Base`), the rotation (unchanged by `placeInRow`), and its
shape's bounding box expressed as offsets from the placement base — FreeCAD's
`Shape.BoundBox` follows the placement, so translating `Placement.Base.x` by d
translates `BoundBox.XMin`/`XMax` by d. -/
structure PlacedObject where
  baseX : ℚ
  baseY : ℚ
  baseZ : ℚ
  rotAngle : ℚ
  rotAxis : Vec3
  shapeXMin : ℚ
  shapeXMax : ℚ
  shapeYMin : ℚ
  shapeYMax : ℚ
deriving DecidableEq

/-- `obj.Shape.BoundBox.XMin` under the current placement. -/
def PlacedObject.bbXMin (o : PlacedObject) : ℚ := o.baseX + o.shapeXMin

/-- `obj.Shape.BoundBox.XMax` under the current placement. -/
def PlacedObject.bbXMax (o : PlacedObject) : ℚ := o.baseX + o.shapeXMax

/-- `obj.Shape.BoundBox.YMin` under the current placement. -/
def PlacedObject.bbYMin (o : PlacedObject) : ℚ := o.baseY + o.shapeYMin

/-- The loop of `placeInRow` (exportutils.py:230-234), carrying the running
`pos`: shift each object so its `XMin` lands on `pos` and its `YMin` on
`startPosY`, then continue after its (new) `XMax` plus the gap. -/
def placeInRowGo (startPosY spaceBetweenObjects : ℚ) :
    List PlacedObject → ℚ → List PlacedObject
  | [], _ => []
  | obj :: rest, pos =>
    let moved := { obj with
      baseX := obj.baseX - obj.bbXMin + pos,
      baseY := obj.baseY - obj.bbYMin + startPosY }
    moved :: placeInRowGo startPosY spaceBetweenObjects rest
      (moved.bbXMax + spaceBetweenObjects)

/-- `exportutils.placeInRow` (exportutils.py:229-234). -/
def exportutils.placeInRow (objectsToPlace : List PlacedObject)
    (startPosX startPosY spaceBetweenObjects : ℚ) : List PlacedObject :=
  placeInRowGo startPosY spaceBetweenObjects objectsToPlace startPosX

/-- Spec-side row property: the first box starts at `pos`, every box's `YMin`
is `startPosY`, and each subsequent box starts at the previous box's `XMax`
plus the gap. -/
def rowSpec (startPosY spaceBetweenObjects : ℚ) : List PlacedObject → ℚ → Prop
  | [], _ => True
  | obj :: rest, pos =>
    obj.bbXMin = pos ∧ obj.bbYMin = startPosY ∧
      rowSpec startPosY spaceBetweenObjects rest (obj.bbXMax + spaceBetweenObjects)

/-- The placement components `placeInRow` does not touch: the Z base, the
rotation, and the object's own shape. -/
def placementPreserved (a b : PlacedObject) : Prop :=
  b.baseZ = a.baseZ ∧ b.rotAngle = a.rotAngle ∧ b.rotAxis = a.rotAxis ∧
    b.shapeXMin = a.shapeXMin ∧ b.shapeXMax = a.shapeXMax ∧
    b.shapeYMin = a.shapeYMin ∧ b.shapeYMax = a.shapeYMax

/-- Python's round-half-to-even on a rational, to an integer. -/
def roundHalfEven (q : ℚ) : ℤ :=
  if q - ⌊q⌋ < 1/2 then ⌊q⌋
  else if q - ⌊q⌋ > 1/2 then ⌊q⌋ + 1
  else if ⌊q⌋ % 2 = 0 then ⌊q⌋ else ⌊q⌋ + 1

/-- Python's `round(z, 2)`: round to two decimal places, ties to even. -/
def pyRound2 (q : ℚ) : ℚ :=
  (roundHalfEven (q * 100) : ℚ) / 100

/-- The accumulator loop of `findLowestZForFace` (exportutils.py:183-187). -/
def findLowestZGo : List Vec3 → Option ℚ → Option ℚ
  | [], minDepth => minDepth
  | v :: rest, minDepth =>
    let depth := pyRound2 v.z
    match minDepth with
    | none => findLowestZGo rest (some depth)
    | some m => findLowestZGo rest (if depth < m then some depth else some m)

/-- `exportutils.findLowestZForFace` (exportutils.py:182-188). -/
def exportutils.findLowestZForFace (face : Face) : Option ℚ :=
  findLowestZGo face.vertexes none

/-! Concrete documents, objects and states used to evaluate the definitions. -/

def bbox0 : BBox := ⟨0, 0, 0, 0, 0, 0⟩

/-- A plain (non-compound, non-link) object with the given label. -/
def simpleObj (label : String) : DocObj :=
  .mk label label false false bbox0 [] none []

/-- An object whose bounding box starts at X = -1. -/
def negObj : DocObj :=
  .mk "neg" "neg" false false ⟨-1, 0, 9, 9, 10, 10⟩ [] none []

def matBamboo3 : cutterMaterial := cutterMaterial.bamboo (.int 3) (1/4) 255

def envSmall : ExecEnv := ⟨bbox0, "G1 X0"⟩

def stNeg : exportutils := ⟨matBamboo3, [negObj], none, false⟩

def stNoGcode : exportutils := ⟨matBamboo3, [], none, false⟩

def stWithGcode : exportutils := ⟨matBamboo3, [], some "G1 X0", false⟩

def docOps : Document := ⟨[simpleObj "Operations"]⟩

def docA : Document := ⟨[simpleObj "a"]⟩

def genvOne : Nat → WinQuery := fun _ => .windows 1

def genvZero : Nat → WinQuery := fun _ => .windows 0

def genvTwo : Nat → WinQuery := fun _ => .windows 2

/-- A face with only two vertices whose normal is +Z. -/
def faceTwoVerts : Face := ⟨⟨0, 0, 1⟩, [⟨0, 0, 0⟩, ⟨1, 0, 0⟩]⟩

def objPanel : DocObj := .mk "panel" "panel" false false bbox0 [faceTwoVerts] none []

def docPanel : Document := ⟨[objPanel]⟩

def stTabsEmpty : tabbedObjectBuilder := ⟨["panel"], 3, [], []⟩

def objATab : DocObj := simpleObj "a_tab"

def docATab : Document := ⟨[objATab]⟩

/-- An object labelled `a_tab` whose shape is a compound that explodes into
no components. -/
def emptyCompoundTab : DocObj := .mk "a_tab" "a_tab" false true bbox0 [] none []

def docEmptyCompound : Document := ⟨[emptyCompoundTab]⟩

def stBuilderA : tabbedObjectBuilder := ⟨["a"], 3, [], []⟩

def docEmpty : Document := ⟨[]⟩

/-- Helper: acrylic fails iff the normalized thickness has no speed multiplier. -/
theorem acrylic_error_iff (t : PyNum) (kerf ci : ℚ) :
    (∃ e, cutterMaterial.acrylic t kerf ci = .error e) ↔
      t.toFloat ∉ ([1, 2, 3, 5] : List ℚ) := by
  unfold cutterMaterial.acrylic
  simp only [lookupQ, acrylicSpeeds]
  split_ifs with h1 h2 h3 h4 <;>
    simp_all [List.mem_cons]

theorem acrylic_ok_of_lookup (t : PyNum) (kerf ci : ℚ) (m : ℚ)
    (h : lookupQ t.toFloat acrylicSpeeds = some m) :
    cutterMaterial.acrylic t kerf ci = .ok ⟨t.toFloat, (300/60) * m, 3000/60, kerf, ci⟩ := by
  simp only [cutterMaterial.acrylic, h]

/-- C1: `cutterMaterial.acrylic` fails exactly when the normalized thickness
is not one of the defined speed-multiplier keys 1.0, 2.0, 3.0, 5.0 mm, and for
a defined thickness returns a preset whose feed speed is (300/60) times the
multiplier defined for that thickness. -/
theorem acrylic_fails_iff_unknown_thickness (t : PyNum) (kerf ci : ℚ) :
    ((∃ e, cutterMaterial.acrylic t kerf ci = .error e) ↔
      t.toFloat ∉ ([1, 2, 3, 5] : List ℚ)) ∧
    (∀ m, lookupQ t.toFloat acrylicSpeeds = some m →
      cutterMaterial.acrylic t kerf ci =
        .ok ⟨t.toFloat, (300/60) * m, 3000/60, kerf, ci⟩) :=
  ⟨acrylic_error_iff t kerf ci, fun m h => acrylic_ok_of_lookup t kerf ci m h⟩

/-- Witness for C1 at thickness 3 (an `int`): multiplier 1.3, feed speed
(300/60) * 1.3. -/
theorem acrylic_fails_iff_unknown_thickness_witness :
    cutterMaterial.acrylic (PyNum.int 3) (1/5) 255 =
      .ok ⟨(PyNum.int 3).toFloat, (300/60) * (13/10), 3000/60, 1/5, 255⟩ :=
  (acrylic_fails_iff_unknown_thickness (PyNum.int 3) (1/5) 255).2 (13/10)
    (by simp only [PyNum.toFloat, acrylicSpeeds, lookupQ]; norm_num)

/-- C7: the bamboo and mdf factories are total and return, for any thickness,
a preset with feed speed (300/60)*1.7 = 8.5, rapid speed 3000/60 = 50, the
normalized thickness, and the given kerf and cut intensity. -/
theorem bamboo_mdf_fixed_speeds (t : PyNum) (kerf ci : ℚ) :
    cutterMaterial.bamboo t kerf ci = ⟨t.toFloat, 17/2, 50, kerf, ci⟩ ∧
    cutterMaterial.mdf t kerf ci = ⟨t.toFloat, 17/2, 50, kerf, ci⟩ := by
  constructor <;>
    · simp only [cutterMaterial.bamboo, cutterMaterial.mdf, cutterMaterial.mk.injEq]
      norm_num

theorem pyMin_le_init (a : ℚ) (l : List ℚ) : pyMin a l ≤ a := by
  induction l generalizing a with
  | nil => exact le_refl a
  | cons b t ih =>
    calc pyMin a (b :: t) = pyMin (min a b) t := rfl
    _ ≤ min a b := ih (min a b)
    _ ≤ a := min_le_left a b

theorem pyMin_le_mem (a x : ℚ) (l : List ℚ) (h : x ∈ l) : pyMin a l ≤ x := by
  induction l generalizing a with
  | nil => cases h
  | cons b t ih =>
    rcases List.mem_cons.mp h with hb | ht
    · subst hb
      calc pyMin a (x :: t) = pyMin (min a x) t := rfl
      _ ≤ min a x := pyMin_le_init (min a x) t
      _ ≤ x := min_le_right a x
    · exact ih (min a b) ht

/-- C2: `exportutils.execute` raises (and so never caches G-code) whenever
some object to cut has a bounding-box XMin or YMin below 0, and whenever the
computed stock bounding box exceeds the 420 x 297 laser bed. -/
theorem execute_raises_on_bounds (st : exportutils) (env : ExecEnv)
    (h : (∃ o ∈ st.objectsToCut, o.bbox.xMin < 0 ∨ o.bbox.yMin < 0) ∨
      env.stockBBox.xLength > 420 ∨ env.stockBBox.yLength > 297) :
    ∃ msg, exportutils.execute st env = .error msg := by
  rcases hl : st.objectsToCut with _ | ⟨o, rest⟩
  · exact ⟨"ValueError: min() arg is an empty sequence", by simp [exportutils.execute, hl]⟩
  · by_cases hneg :
      pyMin o.bbox.xMin (rest.map (fun objectToCut => objectToCut.bbox.xMin)) < 0 ∨
      pyMin o.bbox.yMin (rest.map (fun objectToCut => objectToCut.bbox.yMin)) < 0
    · exact ⟨"Objects are not all in positive X and Y space",
        by simp only [exportutils.execute, hl, if_pos hneg]⟩
    · have hstock : env.stockBBox.xLength > 420 ∨ env.stockBBox.yLength > 297 := by
        rcases h with ⟨o2, ho2, hxy⟩ | hs
        · exfalso
          apply hneg
          rw [hl] at ho2
          rcases List.mem_cons.mp ho2 with rfl | hmem
          · rcases hxy with hx | hy
            · exact Or.inl (lt_of_le_of_lt (pyMin_le_init _ _) hx)
            · exact Or.inr (lt_of_le_of_lt (pyMin_le_init _ _) hy)
          · rcases hxy with hx | hy
            · exact Or.inl (lt_of_le_of_lt
                (pyMin_le_mem _ _ _ (List.mem_map_of_mem _ hmem)) hx)
            · exact Or.inr (lt_of_le_of_lt
                (pyMin_le_mem _ _ _ (List.mem_map_of_mem _ hmem)) hy)
        · exact hs
      exact ⟨"Cut is too large for laser cutter bed",
        by simp only [exportutils.execute, hl, if_neg hneg, if_pos hstock]⟩

/-- Witness for C2: an object whose bounding box starts at X = -1 makes
`execute` raise even with an in-bed stock. -/
theorem execute_raises_on_bounds_witness :
    ∃ msg, exportutils.execute stNeg envSmall = .error msg :=
  execute_raises_on_bounds stNeg envSmall
    (Or.inl ⟨negObj, by simp [stNeg], Or.inl (by norm_num [negObj, DocObj.bbox])⟩)

theorem findSubWindowLoop_error_msgs (genv : Nat → WinQuery) :
    ∀ retries attempt e, findSubWindowLoop genv retries attempt = .error e →
      e = "AttributeError" ∨ e = "Can't find sub window" ∨
        e = "Multiple windows open, please close some" := by
  intro retries
  induction retries with
  | zero =>
    intro attempt e he
    unfold findSubWindowLoop at he
    rcases hq : genv attempt with n | _
    · rcases n with _ | _ | n <;> simp [hq] at he <;> simp [he]
    · simp [hq] at he
      simp [he]
  | succ r ih =>
    intro attempt e he
    unfold findSubWindowLoop at he
    rcases hq : genv attempt with n | _
    · rcases n with _ | _ | n
      · rw [hq] at he
        exact ih (attempt + 1) e he
      · simp [hq] at he
      · simp [hq] at he
        simp [he]
    · rw [hq] at he
      exact ih (attempt + 1) e he

/-- C3 counterexample to the claim as stated: with `append=True`,
`saveScreenshotOfPath` returns without raising even though the cached G-code
is still `None`. -/
theorem saveScreenshot_append_no_raise_counterexample :
    exportutils.saveScreenshotOfPath stNoGcode docOps true genvOne = .ok () ∧
      stNoGcode.gcode = none :=
  ⟨rfl, rfl⟩

/-- C3 (amended): the cached G-code is `None` after construction;
`generateGCode` raises exactly when it is still `None`; and
`saveScreenshotOfPath`, when called with `append=False`, raises the
missing-execute error exactly when it is still `None` (with `append=True` it
returns immediately; with the G-code set it can still raise window-lookup
errors, which carry different messages). -/
theorem gcode_ordering_amended :
    (∀ doc objs mat st, exportutils.init doc objs mat = .ok st → st.gcode = none) ∧
    (∀ st : exportutils,
      (∃ e, exportutils.generateGCode st = .error e) ↔ st.gcode = none) ∧
    (∀ (st : exportutils) (doc : Document) (genv : Nat → WinQuery),
      exportutils.saveScreenshotOfPath st doc false genv =
          .error ".execute not called before attempt to save screenshot" ↔
        st.gcode = none) := by
  refine ⟨?_, ?_, ?_⟩
  · intro doc objs mat st h
    unfold exportutils.init at h
    rcases hr : resolveObjects doc objs with e | os
    · rw [hr] at h
      cases h
    · rw [hr] at h
      cases h
      rfl
  · intro st
    rcases hg : st.gcode with _ | g
    · simp [exportutils.generateGCode, hg]
    · simp [exportutils.generateGCode, hg]
  · intro st doc genv
    rcases hg : st.gcode with _ | g
    · simp [exportutils.saveScreenshotOfPath, hg]
    · simp only [exportutils.saveScreenshotOfPath, hg, Bool.false_eq_true, if_false]
      constructor
      · intro h
        rcases hfil : doc.objects.filter (fun o => o.label = "Operations") with _ | ⟨ops, rest⟩
        · rw [hfil] at h
          simp at h
        · rw [hfil] at h
          rcases hloop : findSubWindowLoop genv 10 0 with e | a
        
          · rw [hloop] at h
            simp at h
            rcases findSubWindowLoop_error_msgs genv 10 0 e hloop with h1 | h1 | h1 <;>
              simp [h1] at h
          · rw [hloop] at h
            simp at h
      · intro h
        cases h

/-- Witness for C3 (amended): a freshly constructed instance over a document
holding the object labelled "a" has no cached G-code. -/
theorem gcode_ordering_amended_witness :
    (⟨matBamboo3, [simpleObj "a"], none, false⟩ : exportutils).gcode = none :=
  gcode_ordering_amended.1 docA [ObjOrName.name "a"] matBamboo3
    ⟨matBamboo3, [simpleObj "a"], none, false⟩ rfl

/-- C4: `placeInRow` lays the objects out in a row: the first bounding box
starts at `startPosX`, every bounding box's YMin lands on `startPosY`, each
subsequent box starts at the previous (placed) box's XMax plus the gap, and no
other placement component (Z base, rotation, shape) changes. -/
theorem placeInRow_abuts (objectsToPlace : List PlacedObject)
    (startPosX startPosY spaceBetweenObjects : ℚ) :
    rowSpec startPosY spaceBetweenObjects
        (exportutils.placeInRow objectsToPlace startPosX startPosY spaceBetweenObjects)
        startPosX ∧
      List.Forall₂ placementPreserved objectsToPlace
        (exportutils.placeInRow objectsToPlace startPosX startPosY spaceBetweenObjects) := by
  unfold exportutils.placeInRow
  induction objectsToPlace generalizing startPosX with
  | nil => exact ⟨trivial, List.Forall₂.nil⟩
  | cons obj rest ih =>
    have hx : (placeInRowGo startPosY spaceBetweenObjects (obj :: rest) startPosX) =
        ({ obj with
            baseX := obj.baseX - obj.bbXMin + startPosX,
            baseY := obj.baseY - obj.bbYMin + startPosY } : PlacedObject) ::
          placeInRowGo startPosY spaceBetweenObjects rest
            (({ obj with
                baseX := obj.baseX - obj.bbXMin + startPosX,
                baseY := obj.baseY - obj.bbYMin + startPosY } : PlacedObject).bbXMax
              + spaceBetweenObjects) := rfl
    rw [hx]
    constructor
    · refine ⟨?_, ?_, ?_⟩
      · simp [PlacedObject.bbXMin]
      · simp [PlacedObject.bbXMin, PlacedObject.bbYMin]
      · exact (ih _).1
    · exact List.Forall₂.cons ⟨rfl, rfl, rfl, rfl, rfl, rfl, rfl⟩ (ih _).2

theorem tabsForFaces_eq_filterMap (objName : String) (normalToFind : Vec3)
    (requiredX requiredY requiredZ : Option ℚ)
    (tabWidth tabNumber tabShift tabRatio : ℚ) (testFunc : Option (Face → Bool)) :
    ∀ (faces : List Face) (i : Nat),
      tabsForFaces objName normalToFind requiredX requiredY requiredZ
          tabWidth tabNumber tabShift tabRatio testFunc faces i =
        (enumFacesFrom i faces).filterMap (fun p =>
          if codeFaceSelected normalToFind requiredX requiredY requiredZ testFunc p.2 then
            some ⟨objName, "Face" ++ toString p.1, tabNumber, tabWidth, tabShift, tabRatio⟩
          else none) := by
  intro faces
  induction faces with
  | nil => intro i; rfl
  | cons face rest ih =>
    intro i
    by_cases hsel : codeFaceSelected normalToFind requiredX requiredY requiredZ testFunc face
    · simp only [tabsForFaces, enumFacesFrom, List.filterMap_cons, hsel, if_pos, if_true, ih]
    · simp only [tabsForFaces, enumFacesFrom, List.filterMap_cons, hsel, if_false, ih,
        Bool.false_eq_true]

/-- C5 counterexample to the claim as stated: a face with only two vertices
whose normal matches the target and which passes every claimed filter is
nevertheless skipped — the code also requires more than two vertices
(exportutils.py:111), so nothing is appended. -/
theorem createTabs_two_vertex_counterexample :
    tabbedObjectBuilder.createTabsByFaceNormal docPanel stTabsEmpty "panel"
        ⟨0, 0, 1⟩ none none none 1 2 0 1 none = .ok stTabsEmpty ∧
      claimFaceSelected ⟨0, 0, 1⟩ none none none none faceTwoVerts = true :=
  ⟨rfl, by norm_num [claimFaceSelected, optNear, Vec3.sub, Vec3.len2, faceTwoVerts]⟩

/-- C5 (amended): `createTabsByFaceNormal` appends one `TabProperties` entry,
in face order, for exactly those faces with more than two vertices whose
normal at (0,0) is within 0.01 of the target and whose first vertex satisfies
every supplied coordinate constraint and the optional test function; all other
faces add nothing, and no other builder state changes. -/
theorem createTabs_appends_selected (doc : Document) (st : tabbedObjectBuilder)
    (objectName : String) (normalToFind : Vec3)
    (requiredX requiredY requiredZ : Option ℚ)
    (tabWidth tabNumber tabShift tabRatio : ℚ) (testFunc : Option (Face → Bool))
    (obj : DocObj) (rest : List DocObj)
    (hfound : doc.objects.filter (fun o => o.label = objectName) = obj :: rest) :
    tabbedObjectBuilder.createTabsByFaceNormal doc st objectName normalToFind
        requiredX requiredY requiredZ tabWidth tabNumber tabShift tabRatio testFunc =
      .ok { st with
        faces := st.faces ++ (enumFacesFrom 1 obj.faces).filterMap (fun p =>
          if codeFaceSelected normalToFind requiredX requiredY requiredZ testFunc p.2 then
            some ⟨obj.name, "Face" ++ toString p.1, tabNumber, tabWidth, tabShift, tabRatio⟩
          else none) } := by
  unfold tabbedObjectBuilder.createTabsByFaceNormal
  rw [hfound]
  simp only [tabsForFaces_eq_filterMap]

/-- Witness for C5 (amended): a document holding one object labelled "panel"
with a single two-vertex face yields no appended tabs. -/
theorem createTabs_appends_selected_witness :
    tabbedObjectBuilder.createTabsByFaceNormal docPanel stTabsEmpty "panel"
        ⟨0, 0, 1⟩ none none none 1 2 0 1 none =
      .ok { stTabsEmpty with
        faces := stTabsEmpty.faces ++ (enumFacesFrom 1 objPanel.faces).filterMap (fun p =>
          if codeFaceSelected ⟨0, 0, 1⟩ none none none none p.2 then
            some ⟨objPanel.name, "Face" ++ toString p.1, 2, 1, 0, 1⟩
          else none) } :=
  createTabs_appends_selected docPanel stTabsEmpty "panel" ⟨0, 0, 1⟩ none none none
    1 2 0 1 none objPanel [] rfl

theorem find?_eq_filter_head (p : DocObj → Bool) (l : List DocObj) :
    l.find? p = (l.filter p).head? := by
  induction l with
  | nil => rfl
  | cons o rest ih =>
    cases hp : p o
    · rw [List.find?_cons_of_neg, List.filter_cons_of_neg, ih] <;> simp [hp]
    · rw [List.find?_cons_of_pos, List.filter_cons_of_pos] <;> simp [hp]

theorem collectTabbed_error_of_missing (doc : Document) :
    ∀ names, (∃ n ∈ names, doc.objects.filter (fun o => o.label = tabLabel n) = []) →
      ∃ e, collectTabbed doc names = .error e := by
  intro names
  induction names with
  | nil => rintro ⟨n, hn, -⟩; cases hn
  | cons n rest ih =>
    rintro ⟨m, hm, hfil⟩
    rcases List.mem_cons.mp hm with rfl | hmem
    · exact ⟨"Can't find tabbed result of object " ++ m, by simp only [collectTabbed, hfil]⟩
    · rcases hfn : doc.objects.filter (fun o => o.label = tabLabel n) with _ | ⟨obj, tl⟩
      · exact ⟨"Can't find tabbed result of object " ++ n, by simp only [collectTabbed, hfn]⟩
      · rcases ih ⟨m, hmem, hfil⟩ with ⟨e, he⟩
        rcases hcomp : obj.isCompound with _ | _
        · exact ⟨e, by simp only [collectTabbed, hfn, hcomp, Bool.false_eq_true, if_false, he]⟩
        · rcases hch : obj.compoundChildren with _ | ⟨c, cs⟩
          · exact ⟨"IndexError: list index out of range",
              by simp only [collectTabbed, hfn, hcomp, if_true, hch]⟩
          · exact ⟨e, by simp only [collectTabbed, hfn, hcomp, if_true, hch, he]⟩

theorem collectTabbed_ok (doc : Document) :
    ∀ names, (∀ n ∈ names, ∃ obj rest2,
        doc.objects.filter (fun o => o.label = tabLabel n) = obj :: rest2 ∧
          (obj.isCompound = true → obj.compoundChildren ≠ [])) →
      collectTabbed doc names = .ok (specTabbedList doc names) := by
  intro names
  induction names with
  | nil => intro _; rfl
  | cons n rest ih =>
    intro h
    rcases h n (List.mem_cons_self n rest) with ⟨obj, rest2, hfil, hcomp⟩
    have htail : collectTabbed doc rest = .ok (specTabbedList doc rest) :=
      ih (fun m hm => h m (List.mem_cons_of_mem n hm))
    have hfind : doc.objects.find? (fun o => o.label = tabLabel n) = some obj := by
      rw [find?_eq_filter_head, hfil]
      rfl
    rcases hc : obj.isCompound with _ | _
    · simp only [collectTabbed, hfil, hc, Bool.false_eq_true, if_false, htail,
        specTabbedList, List.flatMap_cons, hfind]
      rfl
    · rcases hch : obj.compoundChildren with _ | ⟨c, cs⟩
      · exact absurd hch (hcomp hc)
      · simp only [collectTabbed, hfil, hc, if_true, hch, htail,
          specTabbedList, List.flatMap_cons, hfind]

/-- C6 counterexample to the claim as stated: every registered name's tab
result is found, yet `execute` raises — the found object is a compound that
explodes into no components, and the code indexes `components[0]`
(exportutils.py:145). -/
theorem tabbedExecute_empty_compound_counterexample :
    tabbedObjectBuilder.execute docEmptyCompound stBuilderA =
        .error "IndexError: list index out of range" ∧
      ∀ n ∈ stBuilderA.objectNames, ∃ obj,
        docEmptyCompound.objects.find? (fun o => o.label = tabLabel n) = some obj := by
  constructor
  · rfl
  · intro n hn
    rcases List.mem_singleton.mp hn with rfl
    exact ⟨emptyCompoundTab, rfl⟩

/-- C6 (amended): `tabbedObjectBuilder.execute` raises when some registered
object name has no document object carrying the derived tab label; when every
tab result is found, and every compound one explodes into at least one
component, it returns the list of tabbed objects with compound results
replaced by their exploded children. -/
theorem tabbedExecute_collects (doc : Document) (st : tabbedObjectBuilder) :
    ((∃ n ∈ st.objectNames,
        doc.objects.filter (fun o => o.label = tabLabel n) = []) →
      ∃ e, tabbedObjectBuilder.execute doc st = .error e) ∧
    ((∀ n ∈ st.objectNames, ∃ obj rest2,
        doc.objects.filter (fun o => o.label = tabLabel n) = obj :: rest2 ∧
          (obj.isCompound = true → obj.compoundChildren ≠ [])) →
      tabbedObjectBuilder.execute doc st = .ok (specTabbedList doc st.objectNames)) :=
  ⟨fun h => collectTabbed_error_of_missing doc st.objectNames h,
   fun h => collectTabbed_ok doc st.objectNames h⟩

/-- Witness for C6 (amended): a missing tab label raises, and a plain found
tab object is returned as a one-element list. -/
theorem tabbedExecute_collects_witness :
    (∃ e, tabbedObjectBuilder.execute docEmpty stBuilderA = .error e) ∧
      tabbedObjectBuilder.execute docATab stBuilderA =
        .ok (specTabbedList docATab stBuilderA.objectNames) :=
  ⟨(tabbedExecute_collects docEmpty stBuilderA).1
      ⟨"a", List.mem_singleton.mpr rfl, rfl⟩,
   (tabbedExecute_collects docATab stBuilderA).2
      (fun n hn => by
        rcases List.mem_singleton.mp hn with rfl
        exact ⟨objATab, [], rfl, fun hcomp => nomatch hcomp⟩)⟩

theorem findSubWindowLoop_error_of_no_success (genv : Nat → WinQuery) :
    ∀ retries attempt,
      (∀ i, i ≤ retries → genv (attempt + i) ≠ .windows 1) →
      ∃ e, findSubWindowLoop genv retries attempt = .error e := by
  intro retries
  induction retries with
  | zero =>
    intro attempt h
    have h0 : genv attempt ≠ .windows 1 := by
      simpa using h 0 (Nat.le_refl 0)
    rcases hq : genv attempt with n | _
    · rcases n with _ | _ | n
      · exact ⟨"Can't find sub window", by simp [findSubWindowLoop, hq]⟩
      · exact absurd hq h0
      · exact ⟨"Multiple windows open, please close some", by simp [findSubWindowLoop, hq]⟩
    · exact ⟨"AttributeError", by simp [findSubWindowLoop, hq]⟩
  | succ r ih =>
    intro attempt h
    have h0 : genv attempt ≠ .windows 1 := by
      simpa using h 0 (Nat.zero_le (r + 1))
    have hrest : ∀ i, i ≤ r → genv (attempt + 1 + i) ≠ .windows 1 := by
      intro i hi
      have := h (i + 1) (by omega)
      rwa [show attempt + (i + 1) = attempt + 1 + i by omega] at this
    rcases hq : genv attempt with n | _
    · rcases n with _ | _ | n
      · rcases ih (attempt + 1) hrest with ⟨e, he⟩
        exact ⟨e, by simp only [findSubWindowLoop, hq, he]⟩
      · exact absurd hq h0
      · exact ⟨"Multiple windows open, please close some", by simp [findSubWindowLoop, hq]⟩
    · rcases ih (attempt + 1) hrest with ⟨e, he⟩
      exact ⟨e, by simp only [findSubWindowLoop, hq, he]⟩

theorem findSubWindowLoop_multi (genv : Nat → WinQuery) (retries attempt n : Nat)
    (h : genv attempt = .windows (n + 2)) :
    findSubWindowLoop genv retries attempt =
      .error "Multiple windows open, please close some" := by
  cases retries <;> simp [findSubWindowLoop, h]

theorem findSubWindowLoop_local (genv genv2 : Nat → WinQuery) :
    ∀ retries attempt,
      (∀ i, i ≤ retries → genv2 (attempt + i) = genv (attempt + i)) →
      findSubWindowLoop genv2 retries attempt = findSubWindowLoop genv retries attempt := by
  intro retries
  induction retries with
  | zero =>
    intro attempt h
    have h0 : genv2 attempt = genv attempt := by simpa using h 0 (Nat.le_refl 0)
    unfold findSubWindowLoop
    rw [h0]
  | succ r ih =>
    intro attempt h
    have h0 : genv2 attempt = genv attempt := by simpa using h 0 (Nat.zero_le (r + 1))
    have hrest : ∀ i, i ≤ r → genv2 (attempt + 1 + i) = genv (attempt + 1 + i) := by
      intro i hi
      have := h (i + 1) (by omega)
      rwa [show attempt + (i + 1) = attempt + 1 + i by omega] at this
    unfold findSubWindowLoop
    rw [h0, ih (attempt + 1) hrest]

/-- C8: the sub-window search of `saveScreenshotOfPath` is bounded: its
behaviour depends only on the first 11 query answers (10 retries after the
first attempt); when none of those answers is exactly one matching sub-window
it raises rather than looping; and it raises immediately when more than one
matching sub-window is open. -/
theorem saveScreenshot_retry_bounded (st : exportutils) (doc : Document)
    (genv : Nat → WinQuery) (g : String) (ops : DocObj) (rest : List DocObj)
    (hg : st.gcode = some g)
    (hops : doc.objects.filter (fun o => o.label = "Operations") = ops :: rest) :
    ((∀ i, i ≤ 10 → genv i ≠ .windows 1) →
      ∃ e, exportutils.saveScreenshotOfPath st doc false genv = .error e) ∧
    (∀ n, genv 0 = .windows (n + 2) →
      exportutils.saveScreenshotOfPath st doc false genv =
        .error "Multiple windows open, please close some") ∧
    (∀ genv2 : Nat → WinQuery, (∀ i, i ≤ 10 → genv2 i = genv i) →
      exportutils.saveScreenshotOfPath st doc false genv2 =
        exportutils.saveScreenshotOfPath st doc false genv) := by
  refine ⟨?_, ?_, ?_⟩
  · intro h
    rcases findSubWindowLoop_error_of_no_success genv 10 0
        (by intro i hi; simpa using h i hi) with ⟨e, he⟩
    exact ⟨e, by simp only [exportutils.saveScreenshotOfPath, hg, hops, he,
      Bool.false_eq_true, if_false]⟩
  · intro n hn
    have := findSubWindowLoop_multi genv 10 0 n hn
    simp only [exportutils.saveScreenshotOfPath, hg, hops, this,
      Bool.false_eq_true, if_false]
  · intro genv2 h
    have := findSubWindowLoop_local genv genv2 10 0 (by intro i hi; simpa using h i hi)
    simp only [exportutils.saveScreenshotOfPath, hg, hops, this,
      Bool.false_eq_true, if_false]

/-- Witness for C8: with the G-code cached and the "Operations" object
present, a GUI that never shows a matching sub-window makes the screenshot
raise, and a GUI showing two matching sub-windows raises the multiple-windows
error at once. -/
theorem saveScreenshot_retry_bounded_witness :
    (∃ e, exportutils.saveScreenshotOfPath stWithGcode docOps false genvZero = .error e) ∧
      exportutils.saveScreenshotOfPath stWithGcode docOps false genvTwo =
        .error "Multiple windows open, please close some" :=
  ⟨(saveScreenshot_retry_bounded stWithGcode docOps genvZero "G1 X0"
      (simpleObj "Operations") [] rfl rfl).1
      (fun _ _ h => nomatch h),
   (saveScreenshot_retry_bounded stWithGcode docOps genvTwo "G1 X0"
      (simpleObj "Operations") [] rfl rfl).2.1 0 rfl⟩

theorem filterMap_head_eq_findInLinks (objName : String) :
    ∀ l : List DocObj,
      (l.filterMap (fun obj =>
        if obj.isPlainClass then
          (obj.linkedGroup.getD []).find? (fun m => m.label = objName)
        else none)).head? = findInLinks objName l := by
  intro l
  induction l with
  | nil => rfl
  | cons obj rest ih =>
    rcases hp : obj.isPlainClass with _ | _
    · simp only [List.filterMap_cons, hp, Bool.false_eq_true, if_false, findInLinks, ih]
    · rcases hl : obj.linkedGroup with _ | grp
      · simp only [List.filterMap_cons, hp, if_true, hl, Option.getD_none,
          List.find?_nil, findInLinks, ih]
      · rcases hf : grp.find? (fun m => m.label = objName) with _ | m
        · simp only [List.filterMap_cons, hp, if_true, hl, Option.getD_some, hf,
            findInLinks, ih]
        · simp only [List.filterMap_cons, hp, if_true, hl, Option.getD_some, hf,
            findInLinks, List.head?_cons]

/-- C9: `getObjectByLabel` returns the first document object with the label
when one exists, otherwise the first member with that label found inside a
linked object's group, and raises exactly when neither search matches. -/
theorem getObjectByLabel_first_match (doc : Document) (objName : String) :
    exportutils.getObjectByLabel doc objName =
      match doc.objects.find? (fun o => o.label = objName) with
      | some o => .ok o
      | none =>
        match firstLinkedMember doc objName with
        | some m => .ok m
        | none => .error ("Couldn't find object " ++ objName) := by
  have hf := find?_eq_filter_head (fun o => decide (o.label = objName)) doc.objects
  unfold exportutils.getObjectByLabel firstLinkedMember
  rw [filterMap_head_eq_findInLinks]
  rcases hfil : doc.objects.filter (fun o => o.label = objName) with _ | ⟨toRet, rest⟩
  · rw [hfil] at hf
    simp only [List.head?_nil] at hf
    rw [hf, hfil]
  · rw [hfil] at hf
    simp only [List.head?_cons] at hf
    rw [hf, hfil]

theorem findLowestZGo_some (l : List Vec3) :
    ∀ m, findLowestZGo l (some m) =
      some (List.foldl min m (l.map (fun v => pyRound2 v.z))) := by
  induction l with
  | nil => intro m; rfl
  | cons v rest ih =>
    intro m
    have hmin : (if pyRound2 v.z < m then some (pyRound2 v.z) else some m) =
        some (min m (pyRound2 v.z)) := by
      rcases lt_or_ge (pyRound2 v.z) m with hlt | hge
      · rw [if_pos hlt, min_eq_right (le_of_lt hlt)]
      · rw [if_neg (not_lt.mpr hge), min_eq_left hge]
    calc findLowestZGo (v :: rest) (some m)
        = findLowestZGo rest (if pyRound2 v.z < m then some (pyRound2 v.z) else some m) := rfl
      _ = findLowestZGo rest (some (min m (pyRound2 v.z))) := by rw [hmin]
      _ = some (List.foldl min (min m (pyRound2 v.z)) (rest.map (fun v => pyRound2 v.z))) :=
          ih (min m (pyRound2 v.z))
      _ = some (List.foldl min m ((v :: rest).map (fun v => pyRound2 v.z))) := rfl

/-- C10: `findLowestZForFace` returns the minimum, over the face's vertices,
of the Z coordinate rounded to 2 decimal places, and `None` when the face has
no vertices (`List.min?` is exactly that optional minimum). -/
theorem findLowestZ_is_min (face : Face) :
    exportutils.findLowestZForFace face =
      (face.vertexes.map (fun v => pyRound2 v.z)).min? := by
  rcases hv : face.vertexes with _ | ⟨v, rest⟩
  · simp [exportutils.findLowestZForFace, hv, findLowestZGo, List.min?]
  · unfold exportutils.findLowestZForFace
    rw [hv]
    calc findLowestZGo (v :: rest) none
        = findLowestZGo rest (some (pyRound2 v.z)) := rfl
      _ = some (List.foldl min (pyRound2 v.z) (rest.map (fun v => pyRound2 v.z))) :=
          findLowestZGo_some rest (pyRound2 v.z)
      _ = ((v :: rest).map (fun v => pyRound2 v.z)).min? := rfl
